import Mathlib

/-!
Shallow embedding of the iohook fork of libUIOHook (C sources under src/):
the virtual-code translation tables and lookups for the three platforms,
the modifier-mask bookkeeping of the Windows low-level mouse hook, the
Windows coordinate normalization used by event synthesis, the
keyboard/mouse/text posting paths of hook_post_event / hook_post_text,
the X11 runtime key-mapping loader, the macOS KEY_TYPED filter and the
X11 UTF-8 to UTF-16 conversion.  Each definition mirrors one C function
or table; machine integers are modelled as Nat (with explicit 16-bit
masking where the C truncates) or Int where the C uses signed arithmetic.
Platform calls that can fail (SendInput, XTestFake*, CGEventCreate*) are
modelled by Boolean parameters giving the call outcome; performed
injection attempts are returned as explicit lists.
-/

namespace Uiohook

/-! Status codes, event types, masks and button numbers from
src/libuiohook/include/uiohook.h. -/

def UIOHOOK_SUCCESS : Nat := 0x00
def UIOHOOK_FAILURE : Nat := 0x01
def UIOHOOK_ERROR_OUT_OF_MEMORY : Nat := 0x02
def UIOHOOK_ERROR_POST_TEXT_NULL : Nat := 0x03
def UIOHOOK_ERROR_X_OPEN_DISPLAY : Nat := 0x20

def EVENT_HOOK_ENABLED : Nat := 1
def EVENT_HOOK_DISABLED : Nat := 2
def EVENT_KEY_TYPED : Nat := 3
def EVENT_KEY_PRESSED : Nat := 4
def EVENT_KEY_RELEASED : Nat := 5
def EVENT_MOUSE_CLICKED : Nat := 6
def EVENT_MOUSE_PRESSED : Nat := 7
def EVENT_MOUSE_RELEASED : Nat := 8
def EVENT_MOUSE_MOVED : Nat := 9
def EVENT_MOUSE_DRAGGED : Nat := 10
def EVENT_MOUSE_WHEEL : Nat := 11
def EVENT_MOUSE_PRESSED_IGNORE_COORDS : Nat := 12
def EVENT_MOUSE_RELEASED_IGNORE_COORDS : Nat := 13
def EVENT_MOUSE_MOVED_RELATIVE_TO_CURSOR : Nat := 14

def MASK_SHIFT_L : Nat := 1 <<< 0
def MASK_CTRL_L : Nat := 1 <<< 1
def MASK_META_L : Nat := 1 <<< 2
def MASK_ALT_L : Nat := 1 <<< 3
def MASK_SHIFT_R : Nat := 1 <<< 4
def MASK_CTRL_R : Nat := 1 <<< 5
def MASK_META_R : Nat := 1 <<< 6
def MASK_ALT_R : Nat := 1 <<< 7
def MASK_BUTTON1 : Nat := 1 <<< 8
def MASK_BUTTON2 : Nat := 1 <<< 9
def MASK_BUTTON3 : Nat := 1 <<< 10
def MASK_BUTTON4 : Nat := 1 <<< 11
def MASK_BUTTON5 : Nat := 1 <<< 12
def MASK_NUM_LOCK : Nat := 1 <<< 13
def MASK_CAPS_LOCK : Nat := 1 <<< 14
def MASK_SCROLL_LOCK : Nat := 1 <<< 15

def MOUSE_NOBUTTON : Nat := 0
def MOUSE_BUTTON1 : Nat := 1
def MOUSE_BUTTON2 : Nat := 2
def MOUSE_BUTTON3 : Nat := 3
def MOUSE_BUTTON4 : Nat := 4
def MOUSE_BUTTON5 : Nat := 5

def WHEEL_VERTICAL_DIRECTION : Nat := 3
def WHEEL_HORIZONTAL_DIRECTION : Nat := 4

/-! Virtual key codes (VC): the platform-independent identifier space of
src/libuiohook/include/uiohook.h. -/

def VC_UNDEFINED : Nat := 0x0000
def VC_BACKSPACE : Nat := 0x0008
def VC_TAB : Nat := 0x0009
def VC_ENTER : Nat := 0x000A
def VC_KP_CLEAR : Nat := 0x000C
def VC_PAUSE : Nat := 0x0013
def VC_CAPS_LOCK : Nat := 0x0014
def VC_KANA : Nat := 0x0015
def VC_KANJI : Nat := 0x0019
def VC_ESCAPE : Nat := 0x001B
def VC_CONVERT : Nat := 0x001C
def VC_NONCONVERT : Nat := 0x001D
def VC_ACCEPT : Nat := 0x001E
def VC_SPACE : Nat := 0x0020
def VC_PAGE_UP : Nat := 0x0021
def VC_PAGE_DOWN : Nat := 0x0022
def VC_END : Nat := 0x0023
def VC_HOME : Nat := 0x0024
def VC_LEFT : Nat := 0x0025
def VC_UP : Nat := 0x0026
def VC_RIGHT : Nat := 0x0027
def VC_DOWN : Nat := 0x0028
def VC_COMMA : Nat := 0x002C
def VC_MINUS : Nat := 0x002D
def VC_PERIOD : Nat := 0x002E
def VC_SLASH : Nat := 0x002F
def VC_0 : Nat := 0x0030
def VC_1 : Nat := 0x0031
def VC_2 : Nat := 0x0032
def VC_3 : Nat := 0x0033
def VC_4 : Nat := 0x0034
def VC_5 : Nat := 0x0035
def VC_6 : Nat := 0x0036
def VC_7 : Nat := 0x0037
def VC_8 : Nat := 0x0038
def VC_9 : Nat := 0x0039
def VC_SEMICOLON : Nat := 0x003B
def VC_EQUALS : Nat := 0x003D
def VC_A : Nat := 0x0041
def VC_B : Nat := 0x0042
def VC_C : Nat := 0x0043
def VC_D : Nat := 0x0044
def VC_E : Nat := 0x0045
def VC_F : Nat := 0x0046
def VC_G : Nat := 0x0047
def VC_H : Nat := 0x0048
def VC_I : Nat := 0x0049
def VC_J : Nat := 0x004A
def VC_K : Nat := 0x004B
def VC_L : Nat := 0x004C
def VC_M : Nat := 0x004D
def VC_N : Nat := 0x004E
def VC_O : Nat := 0x004F
def VC_P : Nat := 0x0050
def VC_Q : Nat := 0x0051
def VC_R : Nat := 0x0052
def VC_S : Nat := 0x0053
def VC_T : Nat := 0x0054
def VC_U : Nat := 0x0055
def VC_V : Nat := 0x0056
def VC_W : Nat := 0x0057
def VC_X : Nat := 0x0058
def VC_Y : Nat := 0x0059
def VC_Z : Nat := 0x005A
def VC_OPEN_BRACKET : Nat := 0x005B
def VC_CLOSE_BRACKET : Nat := 0x005C
def VC_BACK_SLASH : Nat := 0x005D
def VC_KP_0 : Nat := 0x0060
def VC_KP_1 : Nat := 0x0061
def VC_KP_2 : Nat := 0x0062
def VC_KP_3 : Nat := 0x0063
def VC_KP_4 : Nat := 0x0064
def VC_KP_5 : Nat := 0x0065
def VC_KP_6 : Nat := 0x0066
def VC_KP_7 : Nat := 0x0067
def VC_KP_8 : Nat := 0x0068
def VC_KP_9 : Nat := 0x0069
def VC_KP_MULTIPLY : Nat := 0x006A
def VC_KP_ADD : Nat := 0x006B
def VC_KP_SEPARATOR : Nat := 0x006C
def VC_KP_SUBTRACT : Nat := 0x006D
def VC_KP_DECIMAL : Nat := 0x006E
def VC_KP_DIVIDE : Nat := 0x006F
def VC_F1 : Nat := 0x0070
def VC_F2 : Nat := 0x0071
def VC_F3 : Nat := 0x0072
def VC_F4 : Nat := 0x0073
def VC_F5 : Nat := 0x0074
def VC_F6 : Nat := 0x0075
def VC_F7 : Nat := 0x0076
def VC_F8 : Nat := 0x0077
def VC_F9 : Nat := 0x0078
def VC_F10 : Nat := 0x0079
def VC_F11 : Nat := 0x007A
def VC_F12 : Nat := 0x007B
def VC_KP_EQUALS : Nat := 0x007C
def VC_KP_ENTER : Nat := 0x007D
def VC_KP_PLUS_MINUS : Nat := 0x007E
def VC_DELETE : Nat := 0x007F
def VC_NUM_LOCK : Nat := 0x0090
def VC_SCROLL_LOCK : Nat := 0x0091
def VC_102 : Nat := 0x0099
def VC_PRINT_SCREEN : Nat := 0x009A
def VC_INSERT : Nat := 0x009B
def VC_PRINT : Nat := 0x009C
def VC_SELECT : Nat := 0x009D
def VC_EXECUTE : Nat := 0x009E
def VC_HELP : Nat := 0x009F
def VC_BACK_QUOTE : Nat := 0x00C0
def VC_CANCEL : Nat := 0x00D3
def VC_QUOTE : Nat := 0x00DE
def VC_HANJA : Nat := 0x00E6
def VC_FINAL : Nat := 0x00E7
def VC_JUNJA : Nat := 0x00E8
def VC_HANGUL : Nat := 0x00E9
def VC_ALPHANUMERIC : Nat := 0x00F0
def VC_KATAKANA : Nat := 0x00F1
def VC_HIRAGANA : Nat := 0x00F2
def VC_PROCESS : Nat := 0x0105
def VC_KATAKANA_HIRAGANA : Nat := 0x0106
def VC_MODE_CHANGE : Nat := 0x0107
def VC_IME_OFF : Nat := 0x0108
def VC_IME_ON : Nat := 0x0109
def VC_UNDERSCORE : Nat := 0x020B
def VC_YEN : Nat := 0x020C
def VC_CONTEXT_MENU : Nat := 0x020D
def VC_FUNCTION : Nat := 0x020E
def VC_CHANGE_INPUT_SOURCE : Nat := 0x020F
def VC_JP_COMMA : Nat := 0x0210
def VC_MISC : Nat := 0x0E01
def VC_SHIFT_L : Nat := 0xA010
def VC_CONTROL_L : Nat := 0xA011
def VC_ALT_L : Nat := 0xA012
def VC_META_L : Nat := 0xA09D
def VC_SHIFT_R : Nat := 0xB010
def VC_CONTROL_R : Nat := 0xB011
def VC_ALT_R : Nat := 0xB012
def VC_META_R : Nat := 0xB09D
def VC_LINE_FEED : Nat := 0xC001
def VC_MACRO : Nat := 0xC002
def VC_SCALE : Nat := 0xC003
def VC_SETUP : Nat := 0xC004
def VC_FILE : Nat := 0xC005
def VC_SEND_FILE : Nat := 0xC006
def VC_DELETE_FILE : Nat := 0xC007
def VC_MS_DOS : Nat := 0xC008
def VC_LOCK : Nat := 0xC009
def VC_ROTATE_DISPLAY : Nat := 0xC00A
def VC_CYCLE_WINDOWS : Nat := 0xC00B
def VC_COMPUTER : Nat := 0xC00C
def VC_PHONE : Nat := 0xC00D
def VC_ISO : Nat := 0xC00E
def VC_CONFIG : Nat := 0xC00F
def VC_EXIT : Nat := 0xC010
def VC_MOVE : Nat := 0xC011
def VC_EDIT : Nat := 0xC012
def VC_SCROLL_UP : Nat := 0xC013
def VC_SCROLL_DOWN : Nat := 0xC014
def VC_NEW : Nat := 0xC015
def VC_PLAY_CD : Nat := 0xC016
def VC_PAUSE_CD : Nat := 0xC017
def VC_DASHBOARD : Nat := 0xC018
def VC_SUSPEND : Nat := 0xC019
def VC_CLOSE : Nat := 0xC01A
def VC_FAST_FORWARD : Nat := 0xC01C
def VC_BASS_BOOST : Nat := 0xC01D
def VC_HP : Nat := 0xC01E
def VC_CAMERA : Nat := 0xC01F
def VC_SOUND : Nat := 0xC020
def VC_QUESTION : Nat := 0xC021
def VC_EMAIL : Nat := 0xC022
def VC_CHAT : Nat := 0xC023
def VC_CONNECT : Nat := 0xC024
def VC_FINANCE : Nat := 0xC025
def VC_SPORT : Nat := 0xC026
def VC_SHOP : Nat := 0xC027
def VC_ALT_ERASE : Nat := 0xC028
def VC_BRIGTNESS_DOWN : Nat := 0xC029
def VC_BRIGTNESS_UP : Nat := 0xC02A
def VC_BRIGTNESS_CYCLE : Nat := 0xC02B
def VC_BRIGTNESS_AUTO : Nat := 0xC02C
def VC_SWITCH_VIDEO_MODE : Nat := 0xC02D
def VC_KEYBOARD_LIGHT_TOGGLE : Nat := 0xC02E
def VC_KEYBOARD_LIGHT_DOWN : Nat := 0xC02F
def VC_KEYBOARD_LIGHT_UP : Nat := 0xC030
def VC_SEND : Nat := 0xC031
def VC_REPLY : Nat := 0xC032
def VC_FORWARD_MAIL : Nat := 0xC033
def VC_SAVE : Nat := 0xC034
def VC_DOCUMENTS : Nat := 0xC035
def VC_BATTERY : Nat := 0xC036
def VC_BLUETOOTH : Nat := 0xC037
def VC_WLAN : Nat := 0xC038
def VC_UWB : Nat := 0xC039
def VC_X11_UNKNOWN : Nat := 0xC03A
def VC_VIDEO_NEXT : Nat := 0xC03B
def VC_VIDEO_PREVIOUS : Nat := 0xC03C
def VC_DISPLAY_OFF : Nat := 0xC03D
def VC_WWAN : Nat := 0xC03E
def VC_RFKILL : Nat := 0xC03F
def VC_MEDIA_PREVIOUS : Nat := 0xE010
def VC_MEDIA_NEXT : Nat := 0xE019
def VC_VOLUME_MUTE : Nat := 0xE020
def VC_APP_CALCULATOR : Nat := 0xE021
def VC_MEDIA_PLAY : Nat := 0xE022
def VC_MEDIA : Nat := 0xE023
def VC_MEDIA_STOP : Nat := 0xE024
def VC_APP_BROWSER : Nat := 0xE025
def VC_APP_1 : Nat := 0xE026
def VC_APP_2 : Nat := 0xE027
def VC_APP_3 : Nat := 0xE028
def VC_APP_4 : Nat := 0xE029
def VC_MEDIA_EJECT : Nat := 0xE02C
def VC_MEDIA_CLOSE : Nat := 0xE02D
def VC_VOLUME_UP : Nat := 0xE02E
def VC_MEDIA_EJECT_CLOSE : Nat := 0xE02F
def VC_VOLUME_DOWN : Nat := 0xE030
def VC_MEDIA_RECORD : Nat := 0xE031
def VC_BROWSER_HOME : Nat := 0xE032
def VC_MEDIA_REWIND : Nat := 0xE033
def VC_POWER : Nat := 0xE05E
def VC_SLEEP : Nat := 0xE05F
def VC_WAKE : Nat := 0xE063
def VC_BROWSER_SEARCH : Nat := 0xE065
def VC_BROWSER_FAVORITES : Nat := 0xE066
def VC_BROWSER_REFRESH : Nat := 0xE067
def VC_BROWSER_STOP : Nat := 0xE068
def VC_BROWSER_FORWARD : Nat := 0xE069
def VC_BROWSER_BACK : Nat := 0xE06A
def VC_APP_MAIL : Nat := 0xE06C
def VC_MEDIA_SELECT : Nat := 0xE06D
def VC_ATTN : Nat := 0xE090
def VC_CR_SEL : Nat := 0xE091
def VC_EX_SEL : Nat := 0xE092
def VC_ERASE_EOF : Nat := 0xE093
def VC_PLAY : Nat := 0xE094
def VC_ZOOM : Nat := 0xE095
def VC_NO_NAME : Nat := 0xE096
def VC_PA1 : Nat := 0xE097
def VC_KP_OPEN_PARENTHESIS : Nat := 0xEE01
def VC_KP_CLOSE_PARENTHESIS : Nat := 0xEE02
def VC_F13 : Nat := 0xF000
def VC_F14 : Nat := 0xF001
def VC_F15 : Nat := 0xF002
def VC_F16 : Nat := 0xF003
def VC_F17 : Nat := 0xF004
def VC_F18 : Nat := 0xF005
def VC_F19 : Nat := 0xF006
def VC_F20 : Nat := 0xF007
def VC_F21 : Nat := 0xF008
def VC_F22 : Nat := 0xF009
def VC_F23 : Nat := 0xF00A
def VC_F24 : Nat := 0xF00B
def VC_FIND : Nat := 0xFF70
def VC_OPEN : Nat := 0xFF74
def VC_PROPS : Nat := 0xFF76
def VC_FRONT : Nat := 0xFF77
def VC_STOP : Nat := 0xFF78
def VC_AGAIN : Nat := 0xFF79
def VC_UNDO : Nat := 0xFF7A
def VC_CUT : Nat := 0xFF7B
def VC_COPY : Nat := 0xFF7C
def VC_PASTE : Nat := 0xFF7D
def VC_REDO : Nat := 0xFF7F

/-! Constants that the Windows sources define locally (src/unnamed/part_000
lines 502-513) or take from the Windows SDK. -/

def KEYEVENTF_EXTENDEDKEY : Nat := 0x0001
def KEYEVENTF_KEYUP : Nat := 0x0002
def KEYEVENTF_UNICODE : Nat := 0x0004
def KEYEVENTF_KEYDOWN : Nat := 0x0000
def MAX_WINDOWS_COORD_VALUE : Nat := (1 <<< 16) - 1

def WM_MOUSEMOVE : Nat := 0x0200
def WM_LBUTTONDOWN : Nat := 0x0201
def WM_LBUTTONUP : Nat := 0x0202
def WM_RBUTTONDOWN : Nat := 0x0204
def WM_RBUTTONUP : Nat := 0x0205
def WM_MBUTTONDOWN : Nat := 0x0207
def WM_MBUTTONUP : Nat := 0x0208
def WM_MOUSEWHEEL : Nat := 0x020A
def WM_XBUTTONDOWN : Nat := 0x020B
def WM_XBUTTONUP : Nat := 0x020C
def WM_MOUSEHWHEEL : Nat := 0x020E
def WM_NCXBUTTONDOWN : Nat := 0x00AB
def WM_NCXBUTTONUP : Nat := 0x00AC
def XBUTTON1 : Nat := 0x0001
def XBUTTON2 : Nat := 0x0002

/-- Modifier-mask setter shared by all platforms: modifier_mask |= mask. -/
def set_modifier_mask (m mask : Nat) : Nat := m ||| mask

/-- Modifier-mask clearer: modifier_mask &= ~mask on a uint16_t, so the
complement is taken within 16 bits. -/
def unset_modifier_mask (m mask : Nat) : Nat := m &&& (0xFFFF ^^^ (mask &&& 0xFFFF))

namespace Win
-- Windows translation table, src/libuiohook/src/windows/input_helper.c lines 33-206
-- (VK_* numeric values from the Windows SDK winuser.h).
def win_vcode_keycode_table : List (Nat × Nat) := [
  (VC_CANCEL, 0x03),
  (VC_BACKSPACE, 0x08),
  (VC_TAB, 0x09),
  (VC_KP_CLEAR, 0x0C),
  (VC_KP_CLEAR, 0xFE),
  (VC_ENTER, 0x0D),
  (VC_KP_ENTER, 0x0D),
  (VC_SHIFT_L, 0xA0),
  (VC_SHIFT_R, 0xA1),
  (VC_SHIFT_L, 0x10),
  (VC_CONTROL_L, 0xA2),
  (VC_CONTROL_R, 0xA3),
  (VC_CONTROL_L, 0x11),
  (VC_ALT_L, 0xA4),
  (VC_ALT_R, 0xA5),
  (VC_ALT_L, 0x12),
  (VC_PAUSE, 0x13),
  (VC_CAPS_LOCK, 0x14),
  (VC_KANA, 0x15),
  (VC_HANGUL, 0x15),
  (VC_IME_ON, 0x16),
  (VC_JUNJA, 0x17),
  (VC_FINAL, 0x18),
  (VC_HANJA, 0x19),
  (VC_KANJI, 0x19),
  (VC_IME_OFF, 0x1A),
  (VC_ESCAPE, 0x1B),
  (VC_CONVERT, 0x1C),
  (VC_NONCONVERT, 0x1D),
  (VC_ACCEPT, 0x1E),
  (VC_MODE_CHANGE, 0x1F),
  (VC_SPACE, 0x20),
  (VC_PAGE_UP, 0x21),
  (VC_PAGE_DOWN, 0x22),
  (VC_END, 0x23),
  (VC_HOME, 0x24),
  (VC_LEFT, 0x25),
  (VC_UP, 0x26),
  (VC_RIGHT, 0x27),
  (VC_DOWN, 0x28),
  (VC_SELECT, 0x29),
  (VC_PRINT, 0x2A),
  (VC_EXECUTE, 0x2B),
  (VC_PRINT_SCREEN, 0x2C),
  (VC_INSERT, 0x2D),
  (VC_DELETE, 0x2E),
  (VC_HELP, 0x2F),
  (VC_0, 0x30),
  (VC_1, 0x31),
  (VC_2, 0x32),
  (VC_3, 0x33),
  (VC_4, 0x34),
  (VC_5, 0x35),
  (VC_6, 0x36),
  (VC_7, 0x37),
  (VC_8, 0x38),
  (VC_9, 0x39),
  (VC_A, 0x41),
  (VC_B, 0x42),
  (VC_C, 0x43),
  (VC_D, 0x44),
  (VC_E, 0x45),
  (VC_F, 0x46),
  (VC_G, 0x47),
  (VC_H, 0x48),
  (VC_I, 0x49),
  (VC_J, 0x4A),
  (VC_K, 0x4B),
  (VC_L, 0x4C),
  (VC_M, 0x4D),
  (VC_N, 0x4E),
  (VC_O, 0x4F),
  (VC_P, 0x50),
  (VC_Q, 0x51),
  (VC_R, 0x52),
  (VC_S, 0x53),
  (VC_T, 0x54),
  (VC_U, 0x55),
  (VC_V, 0x56),
  (VC_W, 0x57),
  (VC_X, 0x58),
  (VC_Y, 0x59),
  (VC_Z, 0x5A),
  (VC_META_L, 0x5B),
  (VC_META_R, 0x5C),
  (VC_CONTEXT_MENU, 0x5D),
  (VC_SLEEP, 0x5F),
  (VC_KP_0, 0x60),
  (VC_KP_1, 0x61),
  (VC_KP_2, 0x62),
  (VC_KP_3, 0x63),
  (VC_KP_4, 0x64),
  (VC_KP_5, 0x65),
  (VC_KP_6, 0x66),
  (VC_KP_7, 0x67),
  (VC_KP_8, 0x68),
  (VC_KP_9, 0x69),
  (VC_KP_9, 0x69),
  (VC_KP_MULTIPLY, 0x6A),
  (VC_KP_ADD, 0x6B),
  (VC_KP_SEPARATOR, 0x6C),
  (VC_KP_SUBTRACT, 0x6D),
  (VC_KP_DECIMAL, 0x6E),
  (VC_KP_DIVIDE, 0x6F),
  (VC_F1, 0x70),
  (VC_F2, 0x71),
  (VC_F3, 0x72),
  (VC_F4, 0x73),
  (VC_F5, 0x74),
  (VC_F6, 0x75),
  (VC_F7, 0x76),
  (VC_F8, 0x77),
  (VC_F9, 0x78),
  (VC_F10, 0x79),
  (VC_F11, 0x7A),
  (VC_F12, 0x7B),
  (VC_F13, 0x7C),
  (VC_F14, 0x7D),
  (VC_F15, 0x7E),
  (VC_F16, 0x7F),
  (VC_F17, 0x80),
  (VC_F18, 0x81),
  (VC_F19, 0x82),
  (VC_F20, 0x83),
  (VC_F21, 0x84),
  (VC_F22, 0x85),
  (VC_F23, 0x86),
  (VC_F24, 0x87),
  (VC_NUM_LOCK, 0x90),
  (VC_SCROLL_LOCK, 0x91),
  (VC_KP_EQUALS, 0x92),
  (VC_BROWSER_BACK, 0xA6),
  (VC_BROWSER_FORWARD, 0xA7),
  (VC_BROWSER_REFRESH, 0xA8),
  (VC_BROWSER_STOP, 0xA9),
  (VC_BROWSER_SEARCH, 0xAA),
  (VC_BROWSER_FAVORITES, 0xAB),
  (VC_BROWSER_HOME, 0xAC),
  (VC_VOLUME_MUTE, 0xAD),
  (VC_VOLUME_DOWN, 0xAE),
  (VC_VOLUME_UP, 0xAF),
  (VC_MEDIA_NEXT, 0xB0),
  (VC_MEDIA_PREVIOUS, 0xB1),
  (VC_MEDIA_STOP, 0xB2),
  (VC_MEDIA_PLAY, 0xB3),
  (VC_APP_MAIL, 0xB4),
  (VC_MEDIA_SELECT, 0xB5),
  (VC_APP_1, 0xB6),
  (VC_APP_2, 0xB7),
  (VC_SEMICOLON, 0xBA),
  (VC_EQUALS, 0xBB),
  (VC_COMMA, 0xBC),
  (VC_MINUS, 0xBD),
  (VC_PERIOD, 0xBE),
  (VC_SLASH, 0xBF),
  (VC_BACK_QUOTE, 0xC0),
  (VC_OPEN_BRACKET, 0xDB),
  (VC_BACK_SLASH, 0xDC),
  (VC_CLOSE_BRACKET, 0xDD),
  (VC_QUOTE, 0xDE),
  (VC_MISC, 0xDF),
  (VC_102, 0xE2),
  (VC_PROCESS, 0xE5),
  (VC_ATTN, 0xF6),
  (VC_CR_SEL, 0xF7),
  (VC_EX_SEL, 0xF8),
  (VC_ERASE_EOF, 0xF9),
  (VC_PLAY, 0xFA),
  (VC_ZOOM, 0xFB),
  (VC_NO_NAME, 0xFC),
  (VC_PA1, 0xFD)
]

/-- First-match scan of the Windows table on the native (vk) column,
the loop of keycode_to_vcode in src/libuiohook/src/windows/input_helper.c
lines 211-216. -/
def table_scan_vcode (vk_code : Nat) : Nat :=
  ((win_vcode_keycode_table.find? (fun p => p.2 == vk_code)).map Prod.fst).getD VC_UNDEFINED

/-- Windows native-to-VC lookup, input_helper.c lines 208-223: first-match
table scan followed by the extended-key refinement promoting VC_ENTER to
VC_KP_ENTER. -/
def keycode_to_vcode (vk_code flags : Nat) : Nat :=
  if table_scan_vcode vk_code = VC_ENTER ∧ flags &&& KEYEVENTF_EXTENDEDKEY ≠ 0 then
    VC_KP_ENTER
  else
    table_scan_vcode vk_code

/-- Windows VC-to-native lookup, input_helper.c lines 225-236: first-match
scan on the vcode column, 0x0000 when absent. -/
def vcode_to_keycode (vcode : Nat) : Nat :=
  ((win_vcode_keycode_table.find? (fun p => p.1 == vcode)).map Prod.snd).getD 0x0000

end Win

namespace Win

/-- Outcome of one call of the Windows low-level mouse hook callback:
the global modifier mask after the call and the (is_press, button)
argument passed to dispatch_button_press / dispatch_button_release,
if any. -/
structure MouseHookOutcome where
  mask : Nat
  dispatched : Option (Bool × Nat)
deriving DecidableEq

/-- Modifier-mask and dispatch behaviour of mouse_hook_event_proc,
src/unnamed/part_000 lines 164-274.  wParam is the Windows message,
mouseDataHiword is HIWORD(mshook->mouseData), mask is the global
modifier mask before the call.  The WM_MOUSEMOVE / wheel cases touch no
modifier state and dispatch no button, so they fall through to the
default outcome. -/
def mouse_hook_event_proc (wParam mouseDataHiword mask : Nat) : MouseHookOutcome :=
  if wParam = WM_LBUTTONDOWN then
    ⟨set_modifier_mask mask MASK_BUTTON1, some (true, MOUSE_BUTTON1)⟩
  else if wParam = WM_RBUTTONDOWN then
    ⟨set_modifier_mask mask MASK_BUTTON2, some (true, MOUSE_BUTTON2)⟩
  else if wParam = WM_MBUTTONDOWN then
    ⟨set_modifier_mask mask MASK_BUTTON3, some (true, MOUSE_BUTTON3)⟩
  else if wParam = WM_XBUTTONDOWN ∨ wParam = WM_NCXBUTTONDOWN then
    if mouseDataHiword = XBUTTON1 then
      ⟨set_modifier_mask mask MASK_BUTTON4, some (true, MOUSE_BUTTON4)⟩
    else if mouseDataHiword = XBUTTON2 then
      ⟨set_modifier_mask mask MASK_BUTTON5, some (true, MOUSE_BUTTON5)⟩
    else
      -- Extra mouse buttons: the source passes the button INDEX
      -- MOUSE_BUTTON4 / MOUSE_BUTTON5 to set_modifier_mask here.
      let button := mouseDataHiword
      let mask :=
        if button = 4 then set_modifier_mask mask MOUSE_BUTTON4
        else if button = 5 then set_modifier_mask mask MOUSE_BUTTON5
        else mask
      ⟨mask, some (true, button)⟩
  else if wParam = WM_LBUTTONUP then
    ⟨unset_modifier_mask mask MASK_BUTTON1, some (false, MOUSE_BUTTON1)⟩
  else if wParam = WM_RBUTTONUP then
    ⟨unset_modifier_mask mask MASK_BUTTON2, some (false, MOUSE_BUTTON2)⟩
  else if wParam = WM_MBUTTONUP then
    ⟨unset_modifier_mask mask MASK_BUTTON3, some (false, MOUSE_BUTTON3)⟩
  else if wParam = WM_XBUTTONUP ∨ wParam = WM_NCXBUTTONUP then
    if mouseDataHiword = XBUTTON1 then
      ⟨unset_modifier_mask mask MASK_BUTTON4, some (false, MOUSE_BUTTON4)⟩
    else if mouseDataHiword = XBUTTON2 then
      ⟨unset_modifier_mask mask MASK_BUTTON5, some (false, MOUSE_BUTTON5)⟩
    else
      let button := mouseDataHiword
      let mask :=
        if button = 4 then unset_modifier_mask mask MOUSE_BUTTON4
        else if button = 5 then unset_modifier_mask mask MOUSE_BUTTON5
        else mask
      -- The source dispatches the release with hard-coded MOUSE_BUTTON5.
      ⟨mask, some (false, MOUSE_BUTTON5)⟩
  else
    ⟨mask, none⟩

/-- Windows MulDiv: multiplies two 32-bit values and divides the 64-bit
product by a third, rounding to the nearest integer, computed as
(a * b + c / 2) / c with C truncating division. -/
def MulDiv (a b c : Int) : Int := (a * b + c.tdiv 2).tdiv c

/-- Normalization of one axis, get_absolute_coordinate in
src/unnamed/part_000 lines 529-531. -/
def get_absolute_coordinate (coordinate screen_size : Int) : Int :=
  MulDiv coordinate MAX_WINDOWS_COORD_VALUE screen_size

/-- Windows coordinate normalization, normalize_coordinates in
src/unnamed/part_000 lines 533-548: add the absolute value of the
largest negative virtual-screen origin to each coordinate, then scale by
MulDiv(v, 65535, dimension).  screen_width / screen_height are the
uint16_t-truncated virtual-screen metrics. -/
def normalize_coordinates (lnc_left lnc_top : Int) (screen_width screen_height : Int)
    (x y : Int) : Int × Int :=
  let x := x + |lnc_left|
  let y := y + |lnc_top|
  (get_absolute_coordinate x screen_width, get_absolute_coordinate y screen_height)

/-- Keyboard branch of map_keyboard_event, src/unnamed/part_000 lines
550-587: reject non key-press/release types, look the VC up, reject the
0x0000 sentinel.  Returns the status and the wVk that would be injected. -/
def map_keyboard_event (etype keycode : Nat) : Nat × Nat :=
  if etype = EVENT_KEY_PRESSED ∨ etype = EVENT_KEY_RELEASED then
    let wVk := vcode_to_keycode keycode
    if wVk = 0x0000 then (UIOHOOK_FAILURE, wVk) else (UIOHOOK_SUCCESS, wVk)
  else
    (UIOHOOK_FAILURE, 0)

/-- Keyboard path of the Windows hook_post_event, src/unnamed/part_000
lines 705-752: SendInput runs only when mapping succeeded; a SendInput
of 0 downgrades the status to UIOHOOK_FAILURE.  The second component
lists the wVk values passed to SendInput. -/
def hook_post_event_key (etype keycode : Nat) (sendInputOk : Bool) : Nat × List Nat :=
  let m := map_keyboard_event etype keycode
  if m.1 = UIOHOOK_SUCCESS then
    if sendInputOk then (UIOHOOK_SUCCESS, [m.2]) else (UIOHOOK_FAILURE, [m.2])
  else
    (m.1, [])

/-- Windows hook_post_text, src/unnamed/part_000 lines 754-798.  The
first component is the value the function returns; the second is the
local status variable at the moment of return (the source sets it to
UIOHOOK_FAILURE when SendInput fails but then returns UIOHOOK_SUCCESS
unconditionally). -/
def hook_post_text (text : Option (List Nat)) (allocOk sendInputOk : Bool) : Nat × Nat :=
  match text with
  | none => (UIOHOOK_ERROR_POST_TEXT_NULL, UIOHOOK_ERROR_POST_TEXT_NULL)
  | some _units =>
    if allocOk then
      let status := if sendInputOk then UIOHOOK_SUCCESS else UIOHOOK_FAILURE
      (UIOHOOK_SUCCESS, status)
    else
      (UIOHOOK_ERROR_OUT_OF_MEMORY, UIOHOOK_ERROR_OUT_OF_MEMORY)

end Win

namespace Mac

/-! Core Graphics constants used by src/libuiohook/src/darwin: event
types, mouse buttons and 64-bit event flag masks. -/

def kCGEventLeftMouseDown : Nat := 1
def kCGEventLeftMouseUp : Nat := 2
def kCGEventRightMouseDown : Nat := 3
def kCGEventRightMouseUp : Nat := 4
def kCGEventMouseMoved : Nat := 5
def kCGEventLeftMouseDragged : Nat := 6
def kCGEventRightMouseDragged : Nat := 7
def kCGEventOtherMouseDown : Nat := 25
def kCGEventOtherMouseUp : Nat := 26
def kCGEventOtherMouseDragged : Nat := 27

def kCGMouseButtonLeft : Nat := 0
def kCGMouseButtonRight : Nat := 1

def kCGEventFlagMaskShift : Nat := 0x00020000
def kCGEventFlagMaskControl : Nat := 0x00040000
def kCGEventFlagMaskAlternate : Nat := 0x00080000
def kCGEventFlagMaskCommand : Nat := 0x00100000
def kCGEventFlagMaskNumericPad : Nat := 0x00200000

def kVK_Undefined : Nat := 0xFF
-- macOS translation table, src/libuiohook/src/darwin/input_helper.c lines 85-213
-- (kVK_* numeric values from HIToolbox Events.h and darwin/input_helper.h).
def mac_vcode_keycode_table : List (Nat × Nat) := [
  (VC_A, 0x00),
  (VC_S, 0x01),
  (VC_D, 0x02),
  (VC_F, 0x03),
  (VC_H, 0x04),
  (VC_G, 0x05),
  (VC_Z, 0x06),
  (VC_X, 0x07),
  (VC_C, 0x08),
  (VC_V, 0x09),
  (VC_102, 0x0A),
  (VC_B, 0x0B),
  (VC_Q, 0x0C),
  (VC_W, 0x0D),
  (VC_E, 0x0E),
  (VC_R, 0x0F),
  (VC_Y, 0x10),
  (VC_T, 0x11),
  (VC_1, 0x12),
  (VC_2, 0x13),
  (VC_3, 0x14),
  (VC_4, 0x15),
  (VC_6, 0x16),
  (VC_5, 0x17),
  (VC_EQUALS, 0x18),
  (VC_9, 0x19),
  (VC_7, 0x1A),
  (VC_MINUS, 0x1B),
  (VC_8, 0x1C),
  (VC_0, 0x1D),
  (VC_CLOSE_BRACKET, 0x1E),
  (VC_O, 0x1F),
  (VC_U, 0x20),
  (VC_OPEN_BRACKET, 0x21),
  (VC_I, 0x22),
  (VC_P, 0x23),
  (VC_ENTER, 0x24),
  (VC_L, 0x25),
  (VC_J, 0x26),
  (VC_QUOTE, 0x27),
  (VC_K, 0x28),
  (VC_SEMICOLON, 0x29),
  (VC_BACK_SLASH, 0x2A),
  (VC_COMMA, 0x2B),
  (VC_SLASH, 0x2C),
  (VC_N, 0x2D),
  (VC_M, 0x2E),
  (VC_PERIOD, 0x2F),
  (VC_TAB, 0x30),
  (VC_SPACE, 0x31),
  (VC_BACK_QUOTE, 0x32),
  (VC_BACKSPACE, 0x33),
  (VC_ESCAPE, 0x35),
  (VC_META_R, 0x36),
  (VC_META_L, 0x37),
  (VC_SHIFT_L, 0x38),
  (VC_CAPS_LOCK, 0x39),
  (VC_ALT_L, 0x3A),
  (VC_CONTROL_L, 0x3B),
  (VC_SHIFT_R, 0x3C),
  (VC_ALT_R, 0x3D),
  (VC_CONTROL_R, 0x3E),
  (VC_FUNCTION, 0x3F),
  (VC_F17, 0x40),
  (VC_KP_DECIMAL, 0x41),
  (VC_KP_MULTIPLY, 0x43),
  (VC_KP_ADD, 0x45),
  (VC_KP_CLEAR, 0x47),
  (VC_VOLUME_UP, 0x48),
  (VC_VOLUME_DOWN, 0x49),
  (VC_VOLUME_MUTE, 0x4A),
  (VC_KP_DIVIDE, 0x4B),
  (VC_KP_ENTER, 0x4C),
  (VC_KP_SUBTRACT, 0x4E),
  (VC_F18, 0x4F),
  (VC_F19, 0x50),
  (VC_KP_EQUALS, 0x51),
  (VC_KP_0, 0x52),
  (VC_KP_1, 0x53),
  (VC_KP_2, 0x54),
  (VC_KP_3, 0x55),
  (VC_KP_4, 0x56),
  (VC_KP_5, 0x57),
  (VC_KP_6, 0x58),
  (VC_KP_7, 0x59),
  (VC_F20, 0x5A),
  (VC_KP_8, 0x5B),
  (VC_KP_9, 0x5C),
  (VC_YEN, 0x5D),
  (VC_UNDERSCORE, 0x5E),
  (VC_JP_COMMA, 0x5F),
  (VC_F5, 0x60),
  (VC_F6, 0x61),
  (VC_F7, 0x62),
  (VC_F3, 0x63),
  (VC_F8, 0x64),
  (VC_F9, 0x65),
  (VC_ALPHANUMERIC, 0x66),
  (VC_F11, 0x67),
  (VC_KANA, 0x68),
  (VC_F13, 0x69),
  (VC_F16, 0x6A),
  (VC_F14, 0x6B),
  (VC_F10, 0x6D),
  (VC_CONTEXT_MENU, 0x6E),
  (VC_F12, 0x6F),
  (VC_F15, 0x71),
  (VC_HELP, 0x72),
  (VC_HOME, 0x73),
  (VC_PAGE_UP, 0x74),
  (VC_DELETE, 0x75),
  (VC_F4, 0x76),
  (VC_END, 0x77),
  (VC_F2, 0x78),
  (VC_PAGE_DOWN, 0x79),
  (VC_F1, 0x7A),
  (VC_LEFT, 0x7B),
  (VC_RIGHT, 0x7C),
  (VC_DOWN, 0x7D),
  (VC_UP, 0x7E),
  (VC_POWER, 0xE6),
  (VC_MEDIA_EJECT, 0xEE),
  (VC_MEDIA_PLAY, 0xF0),
  (VC_MEDIA_NEXT, 0xF1),
  (VC_MEDIA_PREVIOUS, 0xF2),
  (VC_CHANGE_INPUT_SOURCE, 0xB3)
]

/-- macOS native-to-VC lookup, darwin/input_helper.c lines 355-366:
first-match scan on the native column. -/
def keycode_to_vcode (keycode : Nat) : Nat :=
  ((mac_vcode_keycode_table.find? (fun p => p.2 == keycode)).map Prod.fst).getD VC_UNDEFINED

/-- macOS VC-to-native lookup, darwin/input_helper.c lines 368-379:
first-match scan on the vcode column, kVK_Undefined (0xFF) when absent. -/
def vcode_to_keycode (vcode : Nat) : Nat :=
  ((mac_vcode_keycode_table.find? (fun p => p.1 == vcode)).map Prod.snd).getD kVK_Undefined

/-- CGEventFlags bit that post_key_event ORs into (press) or clears from
(release) its synthesized-modifier shadow for the given VC,
src/unnamed/part_001 lines 46-89; 0 for non-modifier VCs. -/
def synth_modifier_flag (keycode : Nat) : Nat :=
  if keycode = VC_SHIFT_L ∨ keycode = VC_SHIFT_R then kCGEventFlagMaskShift
  else if keycode = VC_CONTROL_L ∨ keycode = VC_CONTROL_R then kCGEventFlagMaskControl
  else if keycode = VC_META_L ∨ keycode = VC_META_R then kCGEventFlagMaskCommand
  else if keycode = VC_ALT_L ∨ keycode = VC_ALT_R then kCGEventFlagMaskAlternate
  else 0

/-- VCs for which post_key_event ORs kCGEventFlagMaskNumericPad into the
event mask, src/unnamed/part_001 lines 97-118. -/
def is_keypad_vcode (keycode : Nat) : Bool :=
  keycode == VC_KP_0 || keycode == VC_KP_1 || keycode == VC_KP_2 || keycode == VC_KP_3 ||
  keycode == VC_KP_4 || keycode == VC_KP_5 || keycode == VC_KP_6 || keycode == VC_KP_7 ||
  keycode == VC_KP_8 || keycode == VC_KP_9 || keycode == VC_NUM_LOCK ||
  keycode == VC_KP_ENTER || keycode == VC_KP_MULTIPLY || keycode == VC_KP_ADD ||
  keycode == VC_KP_SEPARATOR || keycode == VC_KP_SUBTRACT || keycode == VC_KP_DIVIDE

/-- macOS post_key_event, src/unnamed/part_001 lines 41-145.  cmm is the
static current_modifier_mask shadow (a 64-bit CGEventFlags value),
createOk the outcome of CGEventCreateKeyboardEvent.  Returns the status,
the shadow after the call, and the (keycode, is_pressed, flags) of the
CGEventPost performed, if any.  Note the shadow is updated before the
keycode lookup can fail. -/
def post_key_event (cmm etype keycode : Nat) (createOk : Bool) :
    Nat × Nat × List (Nat × Bool × Nat) :=
  if etype = EVENT_KEY_PRESSED ∨ etype = EVENT_KEY_RELEASED then
    let is_pressed := etype = EVENT_KEY_PRESSED
    let cmm :=
      if is_pressed then cmm ||| synth_modifier_flag keycode
      else cmm &&& (0xFFFFFFFFFFFFFFFF ^^^ synth_modifier_flag keycode)
    let event_mask := if is_keypad_vcode keycode then cmm ||| kCGEventFlagMaskNumericPad else cmm
    let kc := vcode_to_keycode keycode
    if kc = kVK_Undefined then (UIOHOOK_FAILURE, cmm, [])
    else if createOk then (UIOHOOK_SUCCESS, cmm, [(kc, is_pressed, event_mask)])
    else (UIOHOOK_ERROR_OUT_OF_MEMORY, cmm, [])
  else
    (UIOHOOK_FAILURE, cmm, [])

/-- Keyboard path of the macOS hook_post_event, src/unnamed/part_001
lines 294-339: CGEventSourceCreate failing short-circuits with
UIOHOOK_ERROR_OUT_OF_MEMORY. -/
def hook_post_event_key (cmm etype keycode : Nat) (srcOk createOk : Bool) :
    Nat × Nat × List (Nat × Bool × Nat) :=
  if srcOk then post_key_event cmm etype keycode createOk
  else (UIOHOOK_ERROR_OUT_OF_MEMORY, cmm, [])

/-- Motion-classification state kept across calls of the macOS
post_mouse_event, src/unnamed/part_001 lines 29-30. -/
structure MouseState where
  current_motion_event : Nat
  current_motion_button : Nat
deriving DecidableEq

/-- macOS post_mouse_event, src/unnamed/part_001 lines 147-253.
Returns the status, the motion state after the call, and the
(CGEventType, CGMouseButton) of the CGEventPost performed, if any.
createOk is the outcome of CGEventCreateMouseEvent; the state update
happens before that call can fail. -/
def post_mouse_event (st : MouseState) (etype button : Nat) (createOk : Bool) :
    Nat × MouseState × Option (Nat × Nat) :=
  if etype = EVENT_MOUSE_PRESSED ∨ etype = EVENT_MOUSE_PRESSED_IGNORE_COORDS then
    if button = MOUSE_NOBUTTON then (UIOHOOK_FAILURE, st, none)
    else
      let (ty, btn, me) :=
        if button = MOUSE_BUTTON1 then
          (kCGEventLeftMouseDown, kCGMouseButtonLeft, kCGEventLeftMouseDragged)
        else if button = MOUSE_BUTTON2 then
          (kCGEventRightMouseDown, kCGMouseButtonRight, kCGEventRightMouseDragged)
        else
          (kCGEventOtherMouseDown, button - 1, kCGEventOtherMouseDragged)
      let st : MouseState := ⟨me, btn⟩
      if createOk then (UIOHOOK_SUCCESS, st, some (ty, btn))
      else (UIOHOOK_ERROR_OUT_OF_MEMORY, st, none)
  else if etype = EVENT_MOUSE_RELEASED ∨ etype = EVENT_MOUSE_RELEASED_IGNORE_COORDS then
    if button = MOUSE_NOBUTTON then (UIOHOOK_FAILURE, st, none)
    else
      let (ty, btn, dragged) :=
        if button = MOUSE_BUTTON1 then
          (kCGEventLeftMouseUp, kCGMouseButtonLeft, kCGEventLeftMouseDragged)
        else if button = MOUSE_BUTTON2 then
          (kCGEventRightMouseUp, kCGMouseButtonRight, kCGEventRightMouseDragged)
        else
          (kCGEventOtherMouseUp, button - 1, kCGEventOtherMouseDragged)
      let me := if st.current_motion_event = dragged then kCGEventMouseMoved
                else st.current_motion_event
      let st : MouseState := ⟨me, btn⟩
      if createOk then (UIOHOOK_SUCCESS, st, some (ty, btn))
      else (UIOHOOK_ERROR_OUT_OF_MEMORY, st, none)
  else if etype = EVENT_MOUSE_MOVED ∨ etype = EVENT_MOUSE_DRAGGED ∨
          etype = EVENT_MOUSE_MOVED_RELATIVE_TO_CURSOR then
    if createOk then
      (UIOHOOK_SUCCESS, st, some (st.current_motion_event, st.current_motion_button))
    else (UIOHOOK_ERROR_OUT_OF_MEMORY, st, none)
  else
    (UIOHOOK_FAILURE, st, none)

/-- UniChars that suppress the KEY_TYPED event, the switch of
tis_message_to_unicode in darwin/input_helper.c lines 620-629. -/
def tis_invalid_unichar (u : Nat) : Bool :=
  u == 0x01 || u == 0x04 || u == 0x05 || u == 0x10 || u == 0x0B || u == 0x0C || u == 0x1F

/-- Final length adjustment of tis_message_to_unicode, darwin
input_helper.c lines 617-631: a single resolved UTF-16 unit from the
invalid block zeroes the length; everything else is left untouched.  The
result is the resolved buffer truncated to the adjusted length. -/
def tis_filter_typed (buf : List Nat) : List Nat :=
  if buf.length == 1 && tis_invalid_unichar (buf.headD 0) then [] else buf

end Mac

namespace X11

/-- A row of the X11 translation table, struct _key_mapping in
src/unnamed/part_002 lines 37-41: the stable vcode, the 4-character Xkb
symbolic name, and the runtime-discovered keycode slot. -/
structure X11KeyMapping where
  vcode : Nat
  x11_key_name : String
  x11_key_code : Nat
deriving DecidableEq
-- X11 translation table, src/unnamed/part_002 lines 49-333: the
-- (vcode, Xkb name) rows in source order.
def x11_name_rows : List (Nat × String) := [
  (VC_ESCAPE, "ESC"),
  (VC_F1, "FK01"),
  (VC_F2, "FK02"),
  (VC_F3, "FK03"),
  (VC_F4, "FK04"),
  (VC_F5, "FK05"),
  (VC_F6, "FK06"),
  (VC_F7, "FK07"),
  (VC_F8, "FK08"),
  (VC_F9, "FK09"),
  (VC_F10, "FK10"),
  (VC_F11, "FK11"),
  (VC_F12, "FK12"),
  (VC_F13, "FK13"),
  (VC_F14, "FK14"),
  (VC_F15, "FK15"),
  (VC_F16, "FK16"),
  (VC_F17, "FK17"),
  (VC_F18, "FK18"),
  (VC_F19, "FK19"),
  (VC_F20, "FK20"),
  (VC_F21, "FK21"),
  (VC_F22, "FK22"),
  (VC_F23, "FK23"),
  (VC_F24, "FK24"),
  (VC_BACK_QUOTE, "TLDE"),
  (VC_1, "AE01"),
  (VC_2, "AE02"),
  (VC_3, "AE03"),
  (VC_4, "AE04"),
  (VC_5, "AE05"),
  (VC_6, "AE06"),
  (VC_7, "AE07"),
  (VC_8, "AE08"),
  (VC_9, "AE09"),
  (VC_0, "AE10"),
  (VC_MINUS, "AE11"),
  (VC_EQUALS, "AE12"),
  (VC_BACKSPACE, "BKSP"),
  (VC_TAB, "TAB"),
  (VC_Q, "AD01"),
  (VC_W, "AD02"),
  (VC_E, "AD03"),
  (VC_R, "AD04"),
  (VC_T, "AD05"),
  (VC_Y, "AD06"),
  (VC_U, "AD07"),
  (VC_I, "AD08"),
  (VC_O, "AD09"),
  (VC_P, "AD10"),
  (VC_OPEN_BRACKET, "AD11"),
  (VC_CLOSE_BRACKET, "AD12"),
  (VC_ENTER, "RTRN"),
  (VC_CAPS_LOCK, "CAPS"),
  (VC_A, "AC01"),
  (VC_S, "AC02"),
  (VC_D, "AC03"),
  (VC_F, "AC04"),
  (VC_G, "AC05"),
  (VC_H, "AC06"),
  (VC_J, "AC07"),
  (VC_K, "AC08"),
  (VC_L, "AC09"),
  (VC_SEMICOLON, "AC10"),
  (VC_QUOTE, "AC11"),
  (VC_BACK_SLASH, "AC12"),
  (VC_BACK_SLASH, "BKSL"),
  (VC_SHIFT_L, "LFSH"),
  (VC_Z, "AB01"),
  (VC_X, "AB02"),
  (VC_C, "AB03"),
  (VC_V, "AB04"),
  (VC_B, "AB05"),
  (VC_N, "AB06"),
  (VC_M, "AB07"),
  (VC_COMMA, "AB08"),
  (VC_PERIOD, "AB09"),
  (VC_SLASH, "AB10"),
  (VC_SHIFT_R, "RTSH"),
  (VC_102, "LSGT"),
  (VC_ALT_L, "LALT"),
  (VC_CONTROL_L, "LCTL"),
  (VC_META_L, "LWIN"),
  (VC_META_L, "LMTA"),
  (VC_SPACE, "SPCE"),
  (VC_META_R, "RWIN"),
  (VC_META_R, "RMTA"),
  (VC_CONTROL_R, "RCTL"),
  (VC_ALT_R, "RALT"),
  (VC_CONTEXT_MENU, "COMP"),
  (VC_CONTEXT_MENU, "MENU"),
  (VC_PRINT_SCREEN, "PRSC"),
  (VC_SCROLL_LOCK, "SCLK"),
  (VC_PAUSE, "PAUS"),
  (VC_INSERT, "INS"),
  (VC_HOME, "HOME"),
  (VC_PAGE_UP, "PGUP"),
  (VC_DELETE, "DELE"),
  (VC_END, "END"),
  (VC_PAGE_DOWN, "PGDN"),
  (VC_UP, "UP"),
  (VC_LEFT, "LEFT"),
  (VC_DOWN, "DOWN"),
  (VC_RIGHT, "RGHT"),
  (VC_NUM_LOCK, "NMLK"),
  (VC_KP_DIVIDE, "KPDV"),
  (VC_KP_MULTIPLY, "KPMU"),
  (VC_KP_SUBTRACT, "KPSU"),
  (VC_KP_7, "KP7"),
  (VC_KP_8, "KP8"),
  (VC_KP_9, "KP9"),
  (VC_KP_ADD, "KPAD"),
  (VC_KP_4, "KP4"),
  (VC_KP_5, "KP5"),
  (VC_KP_6, "KP6"),
  (VC_KP_1, "KP1"),
  (VC_KP_2, "KP2"),
  (VC_KP_3, "KP3"),
  (VC_KP_ENTER, "KPEN"),
  (VC_KP_0, "KP0"),
  (VC_KP_DECIMAL, "KPDL"),
  (VC_KP_EQUALS, "KPEQ"),
  (VC_KATAKANA_HIRAGANA, "HKTG"),
  (VC_UNDERSCORE, "AB11"),
  (VC_CONVERT, "HENK"),
  (VC_NONCONVERT, "MUHE"),
  (VC_YEN, "AE13"),
  (VC_KATAKANA, "KATA"),
  (VC_HIRAGANA, "HIRA"),
  (VC_JP_COMMA, "JPCM"),
  (VC_HANGUL, "HNGL"),
  (VC_HANJA, "HJCV"),
  (VC_VOLUME_MUTE, "MUTE"),
  (VC_VOLUME_DOWN, "VOL-"),
  (VC_VOLUME_UP, "VOL+"),
  (VC_POWER, "POWR"),
  (VC_STOP, "STOP"),
  (VC_AGAIN, "AGAI"),
  (VC_PROPS, "PROP"),
  (VC_UNDO, "UNDO"),
  (VC_FRONT, "FRNT"),
  (VC_COPY, "COPY"),
  (VC_OPEN, "OPEN"),
  (VC_PASTE, "PAST"),
  (VC_FIND, "FIND"),
  (VC_CUT, "CUT"),
  (VC_HELP, "HELP"),
  (VC_SWITCH_VIDEO_MODE, "OUTP"),
  (VC_KEYBOARD_LIGHT_TOGGLE, "KITG"),
  (VC_KEYBOARD_LIGHT_DOWN, "KIDN"),
  (VC_KEYBOARD_LIGHT_UP, "KIUP"),
  (VC_LINE_FEED, "LNFD"),
  (VC_MACRO, "I120"),
  (VC_VOLUME_MUTE, "I121"),
  (VC_VOLUME_DOWN, "I122"),
  (VC_VOLUME_UP, "I123"),
  (VC_POWER, "I124"),
  (VC_KP_EQUALS, "I125"),
  (VC_KP_PLUS_MINUS, "I126"),
  (VC_PAUSE, "I127"),
  (VC_SCALE, "I128"),
  (VC_KP_SEPARATOR, "I129"),
  (VC_HANGUL, "I130"),
  (VC_HANJA, "I131"),
  (VC_YEN, "I132"),
  (VC_META_L, "I133"),
  (VC_META_R, "I134"),
  (VC_CONTEXT_MENU, "I135"),
  (VC_STOP, "I136"),
  (VC_AGAIN, "I137"),
  (VC_PROPS, "I138"),
  (VC_UNDO, "I139"),
  (VC_FRONT, "I140"),
  (VC_COPY, "I141"),
  (VC_OPEN, "I142"),
  (VC_PASTE, "I143"),
  (VC_FIND, "I144"),
  (VC_CUT, "I145"),
  (VC_HELP, "I146"),
  (VC_CONTEXT_MENU, "I147"),
  (VC_APP_CALCULATOR, "I148"),
  (VC_SETUP, "I149"),
  (VC_SLEEP, "I150"),
  (VC_WAKE, "I151"),
  (VC_FILE, "I152"),
  (VC_SEND_FILE, "I153"),
  (VC_DELETE_FILE, "I154"),
  (VC_MODE_CHANGE, "I155"),
  (VC_APP_1, "I156"),
  (VC_APP_2, "I157"),
  (VC_APP_BROWSER, "I158"),
  (VC_MS_DOS, "I159"),
  (VC_LOCK, "I160"),
  (VC_ROTATE_DISPLAY, "I161"),
  (VC_CYCLE_WINDOWS, "I162"),
  (VC_APP_MAIL, "I163"),
  (VC_BROWSER_FAVORITES, "I164"),
  (VC_COMPUTER, "I165"),
  (VC_BROWSER_BACK, "I166"),
  (VC_BROWSER_FORWARD, "I167"),
  (VC_MEDIA_CLOSE, "I168"),
  (VC_MEDIA_EJECT, "I169"),
  (VC_MEDIA_EJECT_CLOSE, "I170"),
  (VC_MEDIA_NEXT, "I171"),
  (VC_MEDIA_PLAY, "I172"),
  (VC_MEDIA_PREVIOUS, "I173"),
  (VC_MEDIA_STOP, "I174"),
  (VC_MEDIA_RECORD, "I175"),
  (VC_MEDIA_REWIND, "I176"),
  (VC_PHONE, "I177"),
  (VC_ISO, "I178"),
  (VC_CONFIG, "I179"),
  (VC_BROWSER_HOME, "I180"),
  (VC_BROWSER_REFRESH, "I181"),
  (VC_EXIT, "I182"),
  (VC_MOVE, "I183"),
  (VC_EDIT, "I184"),
  (VC_SCROLL_UP, "I185"),
  (VC_SCROLL_DOWN, "I186"),
  (VC_KP_OPEN_PARENTHESIS, "I187"),
  (VC_KP_CLOSE_PARENTHESIS, "I188"),
  (VC_NEW, "I189"),
  (VC_REDO, "I190"),
  (VC_F13, "I191"),
  (VC_F14, "I192"),
  (VC_F15, "I193"),
  (VC_F16, "I194"),
  (VC_F17, "I195"),
  (VC_F18, "I196"),
  (VC_F19, "I197"),
  (VC_F20, "I198"),
  (VC_F21, "I199"),
  (VC_F22, "I200"),
  (VC_F23, "I201"),
  (VC_F24, "I202"),
  (VC_PLAY_CD, "I208"),
  (VC_PAUSE_CD, "I209"),
  (VC_APP_3, "I210"),
  (VC_APP_4, "I211"),
  (VC_DASHBOARD, "I212"),
  (VC_SUSPEND, "I213"),
  (VC_CLOSE, "I214"),
  (VC_PLAY, "I215"),
  (VC_FAST_FORWARD, "I216"),
  (VC_BASS_BOOST, "I217"),
  (VC_PRINT, "I218"),
  (VC_HP, "I219"),
  (VC_CAMERA, "I220"),
  (VC_SOUND, "I221"),
  (VC_QUESTION, "I222"),
  (VC_EMAIL, "I223"),
  (VC_CHAT, "I224"),
  (VC_BROWSER_SEARCH, "I225"),
  (VC_CONNECT, "I226"),
  (VC_FINANCE, "I227"),
  (VC_SPORT, "I228"),
  (VC_SHOP, "I229"),
  (VC_ALT_ERASE, "I230"),
  (VC_CANCEL, "I231"),
  (VC_BRIGTNESS_DOWN, "I232"),
  (VC_BRIGTNESS_UP, "I233"),
  (VC_MEDIA, "I234"),
  (VC_SWITCH_VIDEO_MODE, "I235"),
  (VC_KEYBOARD_LIGHT_TOGGLE, "I236"),
  (VC_KEYBOARD_LIGHT_DOWN, "I237"),
  (VC_KEYBOARD_LIGHT_UP, "I238"),
  (VC_SEND, "I239"),
  (VC_REPLY, "I240"),
  (VC_FORWARD_MAIL, "I241"),
  (VC_SAVE, "I242"),
  (VC_DOCUMENTS, "I243"),
  (VC_BATTERY, "I244"),
  (VC_BLUETOOTH, "I245"),
  (VC_WLAN, "I246"),
  (VC_UWB, "I247"),
  (VC_X11_UNKNOWN, "I248"),
  (VC_VIDEO_NEXT, "I249"),
  (VC_VIDEO_PREVIOUS, "I250"),
  (VC_BRIGTNESS_CYCLE, "I251"),
  (VC_BRIGTNESS_AUTO, "I252"),
  (VC_DISPLAY_OFF, "I253"),
  (VC_WWAN, "I254"),
  (VC_RFKILL, "I255")
]

/-- Initial X11 table state: every x11_key_code slot is 0 (static zero
initialization in C). -/
def x11_table_init : List X11KeyMapping :=
  x11_name_rows.map (fun r => { vcode := r.1, x11_key_name := r.2, x11_key_code := 0 })
/-- X11 native-to-VC lookup, src/unnamed/part_002 lines 335-346:
first-match scan on the runtime x11_key_code column of the given table
state. -/
def keycode_to_vcode (tbl : List X11KeyMapping) (keycode : Nat) : Nat :=
  ((tbl.find? (fun e => e.x11_key_code == keycode)).map X11KeyMapping.vcode).getD VC_UNDEFINED

/-- X11 VC-to-native lookup, src/unnamed/part_002 lines 348-359:
first-match scan on the vcode column, 0x0 when absent (an entry whose
slot was never populated also yields its initial 0). -/
def vcode_to_keycode (tbl : List X11KeyMapping) (vcode : Nat) : Nat :=
  ((tbl.find? (fun e => e.vcode == vcode)).map X11KeyMapping.x11_key_code).getD 0x0

def XkbKeyNameLength : Nat := 4

/-- The strncmp(a, b, XkbKeyNameLength) == 0 test of the loader: Xkb
names are at most 4 bytes and NUL-padded, so the comparison equals
equality of the first four NUL-padded characters. -/
def xkb_name_eq (a b : String) : Bool :=
  (a.toList ++ List.replicate 4 (Char.ofNat 0)).take 4 ==
    (b.toList ++ List.replicate 4 (Char.ofNat 0)).take 4

/-- Inner-loop body of the loader in load_key_mappings, src/unnamed/
part_002 lines 710-713: a table entry whose name matches the Xkb name of
position key_code has its slot overwritten with key_code. -/
def walk_entry (names : Nat → String) (key_code : Nat) (e : X11KeyMapping) : X11KeyMapping :=
  if xkb_name_eq e.x11_key_name (names key_code) then { e with x11_key_code := key_code }
  else e

/-- One outer-loop iteration of the loader: the inner loop applies
walk_entry to every table entry. -/
def walk_step (names : Nat → String) (t : List X11KeyMapping) (key_code : Nat) :
    List X11KeyMapping :=
  t.map (walk_entry names key_code)

/-- Keycode walk of load_key_mappings, src/unnamed/part_002 lines
709-715: the C loop runs for key_code from xkb min_key_code while
key_code < max_key_code, so it visits exactly the half-open range
given by List.range' minK (maxK - minK).  names gives the 4-character
Xkb symbolic name of each keycode position. -/
def load_walk (names : Nat → String) (minK maxK : Nat) (tbl : List X11KeyMapping) :
    List X11KeyMapping :=
  (List.range' minK (maxK - minK)).foldl (walk_step names) tbl

/-- Last keycode of L whose Xkb name matches nm; used to characterize
the final slot values produced by load_walk. -/
def last_match (names : Nat → String) (nm : String) (L : List Nat) : Option Nat :=
  L.foldl (fun acc k => if xkb_name_eq nm (names k) then some k else acc) none

/-- X11 post_key_event, src/unnamed/part_001 lines 404-431: lookup
first (0x0000 rejects), then the event-type check, then
XTestFakeKeyEvent whose zero return is an error.  The list holds the
(keycode, is_pressed) pairs passed to XTestFakeKeyEvent. -/
def post_key_event (tbl : List X11KeyMapping) (etype keycode : Nat) (fakeOk : Bool) :
    Nat × List (Nat × Bool) :=
  let kc := vcode_to_keycode tbl keycode
  if kc = 0x0000 then (UIOHOOK_FAILURE, [])
  else if etype = EVENT_KEY_PRESSED then
    if fakeOk then (UIOHOOK_SUCCESS, [(kc, true)]) else (UIOHOOK_FAILURE, [(kc, true)])
  else if etype = EVENT_KEY_RELEASED then
    if fakeOk then (UIOHOOK_SUCCESS, [(kc, false)]) else (UIOHOOK_FAILURE, [(kc, false)])
  else
    (UIOHOOK_FAILURE, [])

/-- Keyboard path of the X11 hook_post_event, src/unnamed/part_001 lines
565-614: an unavailable helper display short-circuits with
UIOHOOK_ERROR_X_OPEN_DISPLAY. -/
def hook_post_event_key (dispOk : Bool) (tbl : List X11KeyMapping) (etype keycode : Nat)
    (fakeOk : Bool) : Nat × List (Nat × Bool) :=
  if dispOk then post_key_event tbl etype keycode fakeOk
  else (UIOHOOK_ERROR_X_OPEN_DISPLAY, [])

/-- X11 post_mouse_wheel_event, src/unnamed/part_001 lines 497-542.
pressOk / releaseOk are the outcomes of the two XTestFakeButtonEvent
calls.  The first component is the value the function returns; the
second is the local status variable at the moment of return (the source
tracks failures in status but then returns UIOHOOK_SUCCESS
unconditionally). -/
def post_mouse_wheel_event (pressOk releaseOk : Bool) : Nat × Nat :=
  let status := if pressOk then UIOHOOK_SUCCESS else UIOHOOK_FAILURE
  let status := if status = UIOHOOK_SUCCESS ∧ ¬releaseOk then UIOHOOK_FAILURE else status
  (UIOHOOK_SUCCESS, status)

/-- UTF-8 first-byte masks of x_key_event_lookup, src/unnamed/part_002
lines 640-646, indexed by the byte count of the sequence (index 0 is
the continuation-byte mask). -/
def utf8_bitmask_table : List Nat := [0x3F, 0x7F, 0x1F, 0x0F, 0x07]

/-- Codepoint decode of x_key_event_lookup, src/unnamed/part_002 lines
648-651: mask the first byte by the count-indexed mask, then shift six
bits per continuation byte. -/
def utf8_codepoint (count : Nat) (buf : List Nat) : Nat :=
  let first := (utf8_bitmask_table.getD count 0) &&& buf.headD 0
  ((buf.drop 1).take (count - 1)).foldl (fun cp byte => (cp <<< 6) ||| (0x3F &&& byte)) first

/-- UTF-16 output of x_key_event_lookup, src/unnamed/part_002 lines
634-671, as the list of code units written to the surrogate buffer:
nothing for an empty lookup or a zero-length destination, the plain
codepoint when it fits in 16 bits, a lead/trail surrogate pair when it
does not and the destination holds at least two units, and nothing on
surrogate-buffer overflow. -/
def x_key_event_utf16 (length count : Nat) (buf : List Nat) : List Nat :=
  if count > 0 then
    if length = 0 then []
    else
      let codepoint := utf8_codepoint count buf
      if codepoint ≤ 0xFFFF then [codepoint]
      else if length > 1 then
        let lead_offset := 0xD800 - (0x10000 >>> 10)
        [lead_offset + (codepoint >>> 10), 0xDC00 + (codepoint &&& 0x3FF)]
      else []
  else []

end X11

end Uiohook

namespace Uiohook

/-! Claim theorems. -/

/-- C1 (code bug): a press of extra mouse button 4 (WM_XBUTTONDOWN with
HIWORD(mouseData) = 4) is dispatched as button 4, but the hook ORs in
MOUSE_BUTTON4 = 0x0004 (the MASK_META_L bit) instead of MASK_BUTTON4 =
0x0800, so the MASK_BUTTON4 bit stays clear after the press; the
matching release is dispatched with hard-coded MOUSE_BUTTON5.  This
contradicts the claim that the MASK_BUTTONn bit of the pressed button is
set after the press. -/
theorem claim_C1_bug_eval :
    (Win.mouse_hook_event_proc WM_XBUTTONDOWN 4 0).mask &&& MASK_BUTTON4 = 0 ∧
    (Win.mouse_hook_event_proc WM_XBUTTONDOWN 4 0).mask = MOUSE_BUTTON4 ∧
    (Win.mouse_hook_event_proc WM_XBUTTONDOWN 4 0).dispatched = some (true, MOUSE_BUTTON4) ∧
    (Win.mouse_hook_event_proc WM_XBUTTONUP 4
        (Win.mouse_hook_event_proc WM_XBUTTONDOWN 4 0).mask).dispatched =
      some (false, MOUSE_BUTTON5) := by
  decide

/-- C3 (code bug): with the native injection primitive failing, the
Windows hook_post_text and the X11 post_mouse_wheel_event both record
UIOHOOK_FAILURE in their local status variable (second component) yet
return UIOHOOK_SUCCESS (first component), contradicting the claim that a
failed SendInput or XTestFakeButtonEvent yields a non-success return. -/
theorem claim_C3_bug_eval :
    Win.hook_post_text (some [0x61]) true false = (UIOHOOK_SUCCESS, UIOHOOK_FAILURE) ∧
    X11.post_mouse_wheel_event false false = (UIOHOOK_SUCCESS, UIOHOOK_FAILURE) := by
  decide

/-- C4 (counterexample): on a virtual screen with left = -1920 and width
3840, posting a mouse move to x = 1919 yields a normalized dx of
MulDiv(3839, 65535, 3840) = 65518, not the 65535 the claim asserts. -/
theorem claim_C4_counterexample :
    (Win.normalize_coordinates (-1920) 0 3840 2160 1919 0).1 ≠ 65535 := by
  decide

/-- C4 (amended): with left = -1920 and width 3840 the normalization
maps x = -1920 to dx = 0 as claimed, but maps the rightmost on-screen
coordinate x = 1919 to dx = 65518; the full-scale value 65535 is reached
only at x = 1920, one past the right edge. -/
theorem claim_C4_amended :
    (Win.normalize_coordinates (-1920) 0 3840 2160 (-1920) 0).1 = 0 ∧
    (Win.normalize_coordinates (-1920) 0 3840 2160 1919 0).1 = 65518 ∧
    (Win.normalize_coordinates (-1920) 0 3840 2160 1920 0).1 = 65535 := by
  decide

/-- C6: on Windows the native-to-VC translation of VK_RETURN (0x0D)
yields VC_KP_ENTER exactly when the extended-key flag is set in the
event flags and VC_ENTER when it is not, and the first-match table scan
itself yields VC_ENTER, so the promotion is a post-lookup refinement
applied after the scan. -/
theorem claim_C6 :
    ∀ flags : Nat,
      Win.keycode_to_vcode 0x0D flags =
        (if flags &&& KEYEVENTF_EXTENDEDKEY ≠ 0 then VC_KP_ENTER else VC_ENTER) ∧
      Win.table_scan_vcode 0x0D = VC_ENTER := by
  intro flags
  refine ⟨?_, by decide⟩
  unfold Win.keycode_to_vcode
  rw [show Win.table_scan_vcode 0x0D = VC_ENTER from by decide]
  by_cases h : flags &&& KEYEVENTF_EXTENDEDKEY ≠ 0 <;> simp [h]

/-- C8: on macOS a single resolved UTF-16 code unit from the block
0x01, 0x04, 0x05, 0x0B, 0x0C, 0x10, 0x1F makes the resolver report
length zero (so no KEY_TYPED is emitted), and any other single resolved
unit is passed through unchanged. -/
theorem claim_C8 (u : Nat) :
    Mac.tis_filter_typed [u] =
      if u ∈ [0x01, 0x04, 0x05, 0x0B, 0x0C, 0x10, 0x1F] then [] else [u] := by
  by_cases h : u ∈ [0x01, 0x04, 0x05, 0x0B, 0x0C, 0x10, 0x1F]
  · rw [if_pos h]
    simp only [List.mem_cons, List.not_mem_nil, or_false] at h
    rcases h with rfl | rfl | rfl | rfl | rfl | rfl | rfl <;> decide
  · rw [if_neg h]
    simp only [List.mem_cons, List.not_mem_nil, or_false, not_or] at h
    obtain ⟨h1, h2, h3, h4, h5, h6, h7⟩ := h
    simp [Mac.tis_filter_typed, Mac.tis_invalid_unichar, h1, h2, h3, h4, h5, h6, h7]

end Uiohook

namespace Uiohook

/-- C9: the X11 key-event string lookup converts the decoded UTF-8
codepoint to UTF-16 as claimed: a codepoint at most 0xFFFF yields
exactly one output unit equal to the codepoint, and a larger codepoint
yields the lead surrogate 0xD7C0 + (cp >> 10) followed by the trail
surrogate 0xDC00 + (cp & 0x3FF), provided the output buffer holds at
least two units. -/
theorem claim_C9 (length count : Nat) (buf : List Nat)
    (hl : 2 ≤ length) (hc : 1 ≤ count) :
    X11.x_key_event_utf16 length count buf =
      if X11.utf8_codepoint count buf ≤ 0xFFFF then [X11.utf8_codepoint count buf]
      else [0xD7C0 + (X11.utf8_codepoint count buf >>> 10),
            0xDC00 + (X11.utf8_codepoint count buf &&& 0x3FF)] := by
  unfold X11.x_key_event_utf16
  rw [if_pos (by omega : count > 0), if_neg (by omega : ¬length = 0)]
  by_cases h : X11.utf8_codepoint count buf ≤ 0xFFFF
  · rw [if_pos h, if_pos h]
  · rw [if_neg h, if_neg h, if_pos (by omega : length > 1),
      show (0xD800 - (0x10000 >>> 10) : Nat) = 0xD7C0 from by decide]

/-- C9 witness: converting the four UTF-8 bytes of U+1F600 with a
two-unit destination yields the surrogate pair D83D DE00. -/
theorem claim_C9_witness :
    X11.x_key_event_utf16 2 4 [0xF0, 0x9F, 0x98, 0x80] = [0xD83D, 0xDE00] := by
  rw [claim_C9 2 4 [0xF0, 0x9F, 0x98, 0x80] (by decide) (by decide)]
  decide

set_option maxRecDepth 8000 in
/-- C2 (counterexample): the claim fails on both platform tables.  On
Windows, VK_SHIFT = 0x10 translates to VC_SHIFT_L yet the composed
lookup returns the first-listed alias VK_LSHIFT = 0xA0.  On X11, in the
table loaded from a keymap where of the two VC_BACK_SLASH aliases only
BKSL is present (at keycode 10), keycode 10 translates to VC_BACK_SLASH
yet the composed lookup returns the unpopulated first-listed AC12 slot
0, and the forward lookup of that 0 is even a different VC.  In both
instances the forward lookup is defined and the composed lookup yields a
native code different from n. -/
theorem claim_C2_counterexample :
    (Win.keycode_to_vcode 0x10 0 = VC_SHIFT_L ∧ VC_SHIFT_L ≠ VC_UNDEFINED ∧
      Win.vcode_to_keycode (Win.keycode_to_vcode 0x10 0) = 0xA0 ∧ (0xA0 : Nat) ≠ 0x10) ∧
    (X11.keycode_to_vcode
        (X11.load_walk (fun k => if k = 10 then "BKSL" else "XXXX") 8 11 X11.x11_table_init)
        10 = VC_BACK_SLASH ∧
      VC_BACK_SLASH ≠ VC_UNDEFINED ∧
      X11.vcode_to_keycode
        (X11.load_walk (fun k => if k = 10 then "BKSL" else "XXXX") 8 11 X11.x11_table_init)
        VC_BACK_SLASH = 0 ∧
      (0 : Nat) ≠ 10 ∧
      X11.keycode_to_vcode
        (X11.load_walk (fun k => if k = 10 then "BKSL" else "XXXX") 8 11 X11.x11_table_init)
        (X11.vcode_to_keycode
          (X11.load_walk (fun k => if k = 10 then "BKSL" else "XXXX") 8 11 X11.x11_table_init)
          VC_BACK_SLASH) = VC_ESCAPE ∧
      VC_ESCAPE ≠ VC_BACK_SLASH) := by
  decide

/-- Round-trip behaviour that does hold for the Windows table: the
composed lookup maps forward (with the same flags) to the same VC, and
returns n itself whenever n is the first-listed native code of that VC. -/
def win_roundtrip_stable (n flags : Nat) : Prop :=
  Win.keycode_to_vcode (Win.vcode_to_keycode (Win.keycode_to_vcode n flags)) flags =
    Win.keycode_to_vcode n flags ∧
  (Win.win_vcode_keycode_table.find? (fun p => p.1 == Win.keycode_to_vcode n flags) =
      some (Win.keycode_to_vcode n flags, n) →
    Win.vcode_to_keycode (Win.keycode_to_vcode n flags) = n)

/-- Round-trip behaviour that does hold for the X11 table in any table
state: the composed lookup returns n itself whenever n is the populated
slot of the first-listed row of its VC (the canonical alias). -/
def x11_roundtrip_canonical (tbl : List X11.X11KeyMapping) (n : Nat) : Prop :=
  X11.keycode_to_vcode tbl n ≠ VC_UNDEFINED →
  (tbl.find? (fun e => e.vcode == X11.keycode_to_vcode tbl n)).map
      X11.X11KeyMapping.x11_key_code = some n →
  X11.vcode_to_keycode tbl (X11.keycode_to_vcode tbl n) = n

/-- Flag-insensitive core of the Windows native-to-VC lookup: the flags
word only enters through the extended-key bit. -/
def win_kv_aux (n : Nat) (ext : Bool) : Nat :=
  if ext then
    (if Win.table_scan_vcode n = VC_ENTER then VC_KP_ENTER else Win.table_scan_vcode n)
  else
    Win.table_scan_vcode n

theorem win_keycode_to_vcode_eq_aux (n flags : Nat) :
    Win.keycode_to_vcode n flags =
      win_kv_aux n (decide (flags &&& KEYEVENTF_EXTENDEDKEY ≠ 0)) := by
  by_cases h : flags &&& KEYEVENTF_EXTENDEDKEY ≠ 0 <;>
    by_cases h2 : Win.table_scan_vcode n = VC_ENTER <;>
      simp [Win.keycode_to_vcode, win_kv_aux, h, h2]

theorem win_kv_aux_scan_ne (n : Nat) (b : Bool) (h : win_kv_aux n b ≠ VC_UNDEFINED) :
    Win.table_scan_vcode n ≠ VC_UNDEFINED := by
  intro h0
  apply h
  have hne : ¬Win.table_scan_vcode n = VC_ENTER := by
    rw [h0]; decide
  cases b
  · simp [win_kv_aux, hne, h0]
  · simp [win_kv_aux, hne, h0]
    decide

theorem win_scan_mem (n : Nat) (h : Win.table_scan_vcode n ≠ VC_UNDEFINED) :
    n ∈ Win.win_vcode_keycode_table.map Prod.snd := by
  unfold Win.table_scan_vcode at h
  cases hf : Win.win_vcode_keycode_table.find? (fun p => p.2 == n) with
  | none => rw [hf] at h; exact absurd rfl h
  | some p =>
    have hp : p.2 = n := by
      have := List.find?_some hf
      simpa using this
    have hm := List.mem_of_find?_eq_some hf
    have := List.mem_map_of_mem Prod.snd hm
    rwa [hp] at this

set_option maxRecDepth 4000 in
theorem win_vk_bound : ∀ k ∈ Win.win_vcode_keycode_table.map Prod.snd, k < 256 := by
  decide

set_option maxHeartbeats 4000000 in
set_option maxRecDepth 16000 in
theorem win_stab_sweep : ∀ n, n < 256 → ∀ b : Bool,
    win_kv_aux n b = VC_UNDEFINED ∨
    win_kv_aux (Win.vcode_to_keycode (win_kv_aux n b)) b = win_kv_aux n b := by
  decide

/-- C2 (amended): for every native code n whose forward lookup is
defined, the composed lookup returns the native slot of the first-listed
table row of the resulting VC, so it returns n itself exactly for
canonical (first-listed) aliases.  On Windows the composed code moreover
always translates forward (with the same flags) back to the same VC; on
X11 only the canonical round trip survives, because the first-listed
row's slot can still be the unpopulated 0 sentinel when only a later
alias name exists in the keymap (see the counterexample). -/
theorem claim_C2_amended (n flags : Nat) (tbl : List X11.X11KeyMapping) :
    (Win.keycode_to_vcode n flags ≠ VC_UNDEFINED → win_roundtrip_stable n flags) ∧
    x11_roundtrip_canonical tbl n := by
  constructor
  · intro h
    constructor
    · simp only [win_keycode_to_vcode_eq_aux] at h ⊢
      have hscan := win_kv_aux_scan_ne n _ h
      have hn : n < 256 := win_vk_bound n (win_scan_mem n hscan)
      rcases win_stab_sweep n hn (decide (flags &&& KEYEVENTF_EXTENDEDKEY ≠ 0)) with h0 | hs
      · exact absurd h0 h
      · exact hs
    · intro hc
      unfold Win.vcode_to_keycode
      rw [hc]
      rfl
  · intro hv hc
    unfold X11.vcode_to_keycode
    rw [hc]
    rfl

set_option maxRecDepth 8000 in
/-- C2 amended witness: VK_ESCAPE = 0x1B is the first-listed native code
of VC_ESCAPE on Windows, and in the X11 table loaded from a keymap that
names position 27 ESC, keycode 27 is the populated slot of the
first-listed row of VC_ESCAPE; both round trips return the code
itself. -/
theorem claim_C2_amended_witness :
    win_roundtrip_stable 0x1B 0 ∧
    X11.vcode_to_keycode
        (X11.load_walk (fun k => if k = 27 then "ESC" else "XXXX") 8 28 X11.x11_table_init)
        (X11.keycode_to_vcode
          (X11.load_walk (fun k => if k = 27 then "ESC" else "XXXX") 8 28 X11.x11_table_init)
          27) = 27 :=
  ⟨(claim_C2_amended 0x1B 0
      (X11.load_walk (fun k => if k = 27 then "ESC" else "XXXX") 8 28 X11.x11_table_init)).1
      (by decide),
   (claim_C2_amended 0x1B 0
      (X11.load_walk (fun k => if k = 27 then "ESC" else "XXXX") 8 28 X11.x11_table_init)).2
      (by decide) (by decide)⟩

end Uiohook

namespace Uiohook

set_option maxRecDepth 8000 in
/-- C5 (counterexample): with min_keycode = 8, max_keycode = 9 and an
Xkb keymap whose position 9 is named ESC, the loader walk leaves the
whole table untouched even though position 9 (max_keycode itself)
matches the ESC table entry, because the C loop stops before
max_keycode; the claim requires the entry to be populated with
keycode 9. -/
theorem claim_C5_counterexample :
    X11.xkb_name_eq "ESC" ((fun k => if k = 9 then "ESC" else "XXXX") 9) = true ∧
    (X11.x11_table_init.any
      (fun e => X11.xkb_name_eq e.x11_key_name ((fun k => if k = 9 then "ESC" else "XXXX") 9))) =
      true ∧
    X11.load_walk (fun k => if k = 9 then "ESC" else "XXXX") 8 9 X11.x11_table_init =
      X11.x11_table_init ∧
    ((X11.load_walk (fun k => if k = 9 then "ESC" else "XXXX") 8 9 X11.x11_table_init).find?
        (fun e => X11.xkb_name_eq e.x11_key_name "ESC")).map X11.X11KeyMapping.x11_key_code =
      some 0 := by
  decide

theorem x11_last_match_foldl_init (cond : Nat → Bool) (L : List Nat) :
    ∀ a : Option Nat,
      L.foldl (fun acc k => if cond k then some k else acc) a =
        (L.foldl (fun acc k => if cond k then some k else acc) none).elim a some := by
  induction L with
  | nil => intro a; rfl
  | cons k L ih =>
    intro a
    by_cases h : cond k
    · simp only [List.foldl_cons, h, if_pos]
      rw [ih (some k)]
      cases L.foldl (fun acc j => if cond j then some j else acc) none with
      | none => rfl
      | some j => rfl
    · simp only [List.foldl_cons, h, ite_false]
      exact ih a

theorem x11_last_match_cons (names : Nat → String) (nm : String) (k : Nat) (L : List Nat) :
    X11.last_match names nm (k :: L) =
      if X11.xkb_name_eq nm (names k) then
        (X11.last_match names nm L).elim (some k) some
      else X11.last_match names nm L := by
  unfold X11.last_match
  rw [List.foldl_cons]
  by_cases h : X11.xkb_name_eq nm (names k)
  · rw [if_pos h, if_pos h]
    exact x11_last_match_foldl_init _ L (some k)
  · rw [if_neg h, if_neg h]

theorem x11_walk_entry_last_match (names : Nat → String) (k : Nat) (L : List Nat)
    (e : X11.X11KeyMapping) :
    (X11.last_match names (X11.walk_entry names k e).x11_key_name L).elim
        (X11.walk_entry names k e)
        (fun j => { X11.walk_entry names k e with x11_key_code := j }) =
      (X11.last_match names e.x11_key_name (k :: L)).elim e
        (fun j => { e with x11_key_code := j }) := by
  rw [x11_last_match_cons]
  unfold X11.walk_entry
  by_cases h : X11.xkb_name_eq e.x11_key_name (names k)
  · rw [if_pos h, if_pos h]
    cases X11.last_match names e.x11_key_name L with
    | none => rfl
    | some j => rfl
  · rw [if_neg h, if_neg h]

theorem x11_load_walk_eq_last_match (names : Nat → String) (L : List Nat) :
    ∀ tbl : List X11.X11KeyMapping,
      L.foldl (X11.walk_step names) tbl =
        tbl.map (fun e =>
          (X11.last_match names e.x11_key_name L).elim e
            (fun j => { e with x11_key_code := j })) := by
  induction L with
  | nil =>
    intro tbl
    simp [X11.last_match]
  | cons k L ih =>
    intro tbl
    rw [List.foldl_cons]
    show L.foldl (X11.walk_step names) (X11.walk_step names tbl k) = _
    rw [ih (X11.walk_step names tbl k), X11.walk_step, List.map_map]
    exact List.map_congr_left (fun e _ => x11_walk_entry_last_match names k L e)

/-- C5 (amended): the loader walks exactly the half-open keycode range
from min_keycode to max_keycode - 1 (max_keycode itself is never
compared), and after the walk each table entry holds the last keycode of
that range whose 4-character Xkb name matches the entry's string key, or
its previous slot value when no position in the range matches. -/
theorem claim_C5_amended (names : Nat → String) (minK maxK : Nat)
    (tbl : List X11.X11KeyMapping) :
    X11.load_walk names minK maxK tbl =
      tbl.map (fun e =>
        (X11.last_match names e.x11_key_name (List.range' minK (maxK - minK))).elim e
          (fun j => { e with x11_key_code := j })) :=
  x11_load_walk_eq_last_match names (List.range' minK (maxK - minK)) tbl

end Uiohook

namespace Uiohook

/-- Windows behaviour for a VC with no native mapping: key press and
release posts perform no SendInput and return UIOHOOK_FAILURE, for
either SendInput outcome. -/
def win_no_mapping_no_injection (vc : Nat) : Prop :=
  ∀ sendInputOk : Bool,
    Win.hook_post_event_key EVENT_KEY_PRESSED vc sendInputOk = (UIOHOOK_FAILURE, []) ∧
    Win.hook_post_event_key EVENT_KEY_RELEASED vc sendInputOk = (UIOHOOK_FAILURE, [])

/-- macOS behaviour for a VC with no native mapping: key press and
release posts perform no CGEventPost and return a non-success status,
from any modifier-shadow state and for any outcome of the fallible
platform calls. -/
def mac_no_mapping_no_injection (vc : Nat) : Prop :=
  ∀ (cmm : Nat) (srcOk createOk : Bool),
    (Mac.hook_post_event_key cmm EVENT_KEY_PRESSED vc srcOk createOk).1 ≠ UIOHOOK_SUCCESS ∧
    (Mac.hook_post_event_key cmm EVENT_KEY_PRESSED vc srcOk createOk).2.2 = [] ∧
    (Mac.hook_post_event_key cmm EVENT_KEY_RELEASED vc srcOk createOk).1 ≠ UIOHOOK_SUCCESS ∧
    (Mac.hook_post_event_key cmm EVENT_KEY_RELEASED vc srcOk createOk).2.2 = []

/-- X11 behaviour for a VC with no native mapping in the given table
state: key press and release posts perform no XTestFakeKeyEvent and
return a non-success status, for any outcome of the fallible platform
calls. -/
def x11_no_mapping_no_injection (tbl : List X11.X11KeyMapping) (vc : Nat) : Prop :=
  ∀ dispOk fakeOk : Bool,
    (X11.hook_post_event_key dispOk tbl EVENT_KEY_PRESSED vc fakeOk).1 ≠ UIOHOOK_SUCCESS ∧
    (X11.hook_post_event_key dispOk tbl EVENT_KEY_PRESSED vc fakeOk).2 = [] ∧
    (X11.hook_post_event_key dispOk tbl EVENT_KEY_RELEASED vc fakeOk).1 ≠ UIOHOOK_SUCCESS ∧
    (X11.hook_post_event_key dispOk tbl EVENT_KEY_RELEASED vc fakeOk).2 = []

set_option maxRecDepth 8000 in
theorem x11_init_vcode_ne : ∀ e ∈ X11.x11_table_init, e.vcode ≠ VC_UNDEFINED := by
  decide

theorem x11_loaded_undefined_lookup (names : Nat → String) (minK maxK : Nat) :
    X11.vcode_to_keycode (X11.load_walk names minK maxK X11.x11_table_init) VC_UNDEFINED =
      0x0000 := by
  unfold X11.vcode_to_keycode
  have hnone : (X11.load_walk names minK maxK X11.x11_table_init).find?
      (fun e => e.vcode == VC_UNDEFINED) = none := by
    rw [List.find?_eq_none]
    intro x hx
    unfold X11.load_walk at hx
    rw [x11_load_walk_eq_last_match] at hx
    obtain ⟨e, he, rfl⟩ := List.mem_map.mp hx
    have hvc : e.vcode ≠ VC_UNDEFINED := x11_init_vcode_ne e he
    cases hl : X11.last_match names e.x11_key_name (List.range' minK (maxK - minK)) with
    | none => simpa [hl] using hvc
    | some j => simpa [hl] using hvc
  rw [hnone]
  rfl

/-- C7: on each platform, a key press or release whose VC has no native
mapping on that platform (the VC-to-native lookup returns the platform
sentinel) makes hook_post_event return a non-success status without
calling the native injection primitive; in particular VC_UNDEFINED has
no mapping on the fixed Windows and macOS tables and in every X11 table
state the loader can produce. -/
theorem claim_C7 (vc : Nat) (tbl : List X11.X11KeyMapping) :
    (Win.vcode_to_keycode vc = 0x0000 → win_no_mapping_no_injection vc) ∧
    (Mac.vcode_to_keycode vc = Mac.kVK_Undefined → mac_no_mapping_no_injection vc) ∧
    (X11.vcode_to_keycode tbl vc = 0x0000 → x11_no_mapping_no_injection tbl vc) ∧
    Win.vcode_to_keycode VC_UNDEFINED = 0x0000 ∧
    Mac.vcode_to_keycode VC_UNDEFINED = Mac.kVK_Undefined ∧
    (∀ (names : Nat → String) (minK maxK : Nat),
      X11.vcode_to_keycode (X11.load_walk names minK maxK X11.x11_table_init) VC_UNDEFINED =
        0x0000) := by
  refine ⟨?_, ?_, ?_, by decide, by decide, fun names minK maxK =>
    x11_loaded_undefined_lookup names minK maxK⟩
  · intro hw sendInputOk
    constructor <;>
      simp [Win.hook_post_event_key, Win.map_keyboard_event, hw,
        EVENT_KEY_PRESSED, EVENT_KEY_RELEASED, UIOHOOK_SUCCESS, UIOHOOK_FAILURE]
  · intro hm cmm srcOk createOk
    cases srcOk <;>
      refine ⟨?_, ?_, ?_, ?_⟩ <;>
        simp [Mac.hook_post_event_key, Mac.post_key_event, hm,
          EVENT_KEY_PRESSED, EVENT_KEY_RELEASED, UIOHOOK_SUCCESS, UIOHOOK_FAILURE,
          UIOHOOK_ERROR_OUT_OF_MEMORY]
  · intro hx dispOk fakeOk
    cases dispOk <;>
      refine ⟨?_, ?_, ?_, ?_⟩ <;>
        simp [X11.hook_post_event_key, X11.post_key_event, hx,
          EVENT_KEY_PRESSED, EVENT_KEY_RELEASED, UIOHOOK_SUCCESS, UIOHOOK_FAILURE,
          UIOHOOK_ERROR_X_OPEN_DISPLAY]

set_option maxRecDepth 8000 in
/-- C7 witness: VC_UNDEFINED has no native mapping on any of the three
platforms (taking the initial X11 table state), and each platform's
no-injection property holds for it. -/
theorem claim_C7_witness :
    win_no_mapping_no_injection VC_UNDEFINED ∧
    mac_no_mapping_no_injection VC_UNDEFINED ∧
    x11_no_mapping_no_injection X11.x11_table_init VC_UNDEFINED :=
  ⟨(claim_C7 VC_UNDEFINED X11.x11_table_init).1 (by decide),
   (claim_C7 VC_UNDEFINED X11.x11_table_init).2.1 (by decide),
   (claim_C7 VC_UNDEFINED X11.x11_table_init).2.2.1 (by decide)⟩

/-- Native dragged event type that the macOS synthesis engine selects
for motion after a press of the given uiohook button. -/
def mac_dragged_of (b : Nat) : Nat :=
  if b = MOUSE_BUTTON1 then Mac.kCGEventLeftMouseDragged
  else if b = MOUSE_BUTTON2 then Mac.kCGEventRightMouseDragged
  else Mac.kCGEventOtherMouseDragged

/-- CGMouseButton that the macOS synthesis engine passes for the given
uiohook button. -/
def mac_cg_button_of (b : Nat) : Nat :=
  if b = MOUSE_BUTTON1 then Mac.kCGMouseButtonLeft
  else if b = MOUSE_BUTTON2 then Mac.kCGMouseButtonRight
  else b - 1

/-- Property that from the given motion state, posting any of the three
motion event types (with any button payload) succeeds, injects the given
native (type, button) pair, and leaves the state unchanged. -/
def mac_motion_posts (st : Mac.MouseState) (ty btn : Nat) : Prop :=
  ∀ mb : Nat,
    Mac.post_mouse_event st EVENT_MOUSE_MOVED mb true = (UIOHOOK_SUCCESS, st, some (ty, btn)) ∧
    Mac.post_mouse_event st EVENT_MOUSE_DRAGGED mb true = (UIOHOOK_SUCCESS, st, some (ty, btn)) ∧
    Mac.post_mouse_event st EVENT_MOUSE_MOVED_RELATIVE_TO_CURSOR mb true =
      (UIOHOOK_SUCCESS, st, some (ty, btn))

/-- Motion-classification invariant of the macOS synthesis engine for
button b: a successfully posted press puts the state in the dragged
classification for b, motion events posted in that state are injected as
the corresponding native dragged event carrying b's native button and
keep the state, the posted release of b reverts the motion
classification to plain mouse-moved, and motion events posted after the
release are injected as plain mouse-moved events. -/
def mac_drag_invariant (b : Nat) : Prop :=
  ∀ st : Mac.MouseState,
    (Mac.post_mouse_event st EVENT_MOUSE_PRESSED b true).1 = UIOHOOK_SUCCESS ∧
    (Mac.post_mouse_event st EVENT_MOUSE_PRESSED b true).2.1 =
      ⟨mac_dragged_of b, mac_cg_button_of b⟩ ∧
    mac_motion_posts ⟨mac_dragged_of b, mac_cg_button_of b⟩ (mac_dragged_of b)
      (mac_cg_button_of b) ∧
    (Mac.post_mouse_event ⟨mac_dragged_of b, mac_cg_button_of b⟩ EVENT_MOUSE_RELEASED b
        true).1 = UIOHOOK_SUCCESS ∧
    (Mac.post_mouse_event ⟨mac_dragged_of b, mac_cg_button_of b⟩ EVENT_MOUSE_RELEASED b
        true).2.1 = ⟨Mac.kCGEventMouseMoved, mac_cg_button_of b⟩ ∧
    mac_motion_posts ⟨Mac.kCGEventMouseMoved, mac_cg_button_of b⟩ Mac.kCGEventMouseMoved
      (mac_cg_button_of b)

/-- C10: the macOS hook_post_event keeps a motion-classification state
across calls: after a successfully posted press of button b, posted
motion events are injected as the corresponding native dragged event
carrying b's native button, and after the posted release of b the state
reverts so later motion events are injected as plain mouse-moved
events. -/
theorem claim_C10 (b : Nat) (hb : b ≠ MOUSE_NOBUTTON) : mac_drag_invariant b := by
  intro st
  rcases b with _ | _ | _ | n
  · exact absurd rfl hb
  · exact ⟨rfl, rfl, fun mb => ⟨rfl, rfl, rfl⟩, rfl, rfl, fun mb => ⟨rfl, rfl, rfl⟩⟩
  · exact ⟨rfl, rfl, fun mb => ⟨rfl, rfl, rfl⟩, rfl, rfl, fun mb => ⟨rfl, rfl, rfl⟩⟩
  · have h1 : (n + 3 : Nat) ≠ MOUSE_BUTTON1 := by simp [MOUSE_BUTTON1]
    have h2 : (n + 3 : Nat) ≠ MOUSE_BUTTON2 := by simp [MOUSE_BUTTON2]
    have h0 : (n + 3 : Nat) ≠ MOUSE_NOBUTTON := hb
    refine ⟨?_, ?_, ?_, ?_, ?_, ?_⟩ <;>
      simp [Mac.post_mouse_event, mac_dragged_of, mac_cg_button_of, mac_motion_posts,
        h0, h1, h2, EVENT_MOUSE_PRESSED, EVENT_MOUSE_RELEASED, EVENT_MOUSE_MOVED,
        EVENT_MOUSE_DRAGGED, EVENT_MOUSE_MOVED_RELATIVE_TO_CURSOR,
        EVENT_MOUSE_PRESSED_IGNORE_COORDS, EVENT_MOUSE_RELEASED_IGNORE_COORDS,
        MOUSE_NOBUTTON, MOUSE_BUTTON1, MOUSE_BUTTON2, UIOHOOK_SUCCESS,
        Mac.kCGEventMouseMoved, Mac.kCGEventLeftMouseDragged, Mac.kCGEventRightMouseDragged,
        Mac.kCGEventOtherMouseDragged, Mac.kCGEventOtherMouseDown, Mac.kCGEventOtherMouseUp]

/-- C10 witness: the invariant at button 3 (an "other" button). -/
theorem claim_C10_witness : mac_drag_invariant 3 :=
  claim_C10 3 (by decide)

end Uiohook
